import Mathlib

/-!
Shallow embedding of `trmnl_server.py`, the single source file of the
TRMNL local mock server, together with theorems settling the claims about
its specification.

The server is a FastAPI application with stateless handlers.  Each handler
is translated here as a pure Lean function from its inputs (path/query
parameters, the parsed JSON request body, the request base URL, and —
where the handler reads the clock or the disk — an explicit time or
filesystem argument) to an `HttpResp` value capturing the HTTP status,
headers and body the handler produces.
-/

namespace TRMNL

/-- JSON values as produced by Python's `json` module (numbers restricted
to integers, which covers every literal appearing in the server). -/
inductive Json where
  | null
  | bool (b : Bool)
  | num (n : Int)
  | str (s : String)
  | arr (elems : List Json)
  | obj (fields : List (String × Json))

/-- Does the pattern `k` occur at the head of `s`? (helper for substring
search, used to model Python's `in` on strings). -/
def charsLead : List Char → List Char → Bool
  | [], _ => true
  | _ :: _, [] => false
  | a :: as, b :: bs => a == b && charsLead as bs

/-- Python `k in s` for strings: does `k` occur as a contiguous substring
of `s`? -/
def containsSub (k : List Char) : List Char → Bool
  | [] => charsLead k []
  | b :: bs => charsLead k (b :: bs) || containsSub k bs

/-- Python `name.startswith('/')`. -/
def startsWithSlash (name : String) : Bool :=
  match name.data with
  | '/' :: _ => true
  | _ => false

/-- Python `s.rstrip("/")`: drop every trailing `'/'`. -/
def rstripSlash (s : String) : String :=
  ⟨(s.data.reverse.dropWhile (fun c => c == '/')).reverse⟩

/-- UTF-8 encoding of a single character, as a list of byte values
(models Python `str.encode()` characterwise). -/
def utf8EncodeChar (c : Char) : List Nat :=
  let n := c.toNat
  if n < 0x80 then [n]
  else if n < 0x800 then [0xC0 + n / 64, 0x80 + n % 64]
  else if n < 0x10000 then [0xE0 + n / 4096, 0x80 + (n / 64) % 64, 0x80 + n % 64]
  else [0xF0 + n / 262144, 0x80 + (n / 4096) % 64, 0x80 + (n / 64) % 64, 0x80 + n % 64]

/-- Python `s.encode()`: the UTF-8 bytes of a string. -/
def strBytes (s : String) : List Nat :=
  (s.data.map utf8EncodeChar).flatten

/-- Python `str(i)` for an integer, as used when the server places a
number inside an HTTP header. -/
def intStr (i : Int) : String := toString i

/-- A single-quote character, used when rendering Python list `repr`. -/
def singleQuote : String := ⟨[Char.ofNat 39]⟩

/-- Python `str(xs)` for a list of strings, e.g. `['id', 'message']`. -/
def pyListRepr (xs : List String) : String :=
  "[" ++ String.intercalate ", " (xs.map (fun k => singleQuote ++ k ++ singleQuote)) ++ "]"

/-- The response of a handler: HTTP status plus the payload variant the
handler builds (redirect, raw bytes with headers, JSON body, a file read
from disk, an `HTTPException`-style error, or an unhandled exception that
FastAPI turns into a 500). -/
inductive HttpResp where
  | redirect (status : Int) (location : String)
  | bytes (status : Int) (mediaType : String) (headers : List (String × String))
      (body : List Nat)
  | json (status : Int) (body : Json)
  | file (status : Int) (mediaType : String) (path : String) (body : List Nat)
  | error (status : Int) (detail : String)

/-- The HTTP status code of a response. -/
def respStatus : HttpResp → Int
  | .redirect s _ => s
  | .bytes s _ _ _ => s
  | .json s _ => s
  | .file s _ _ _ => s
  | .error s _ => s

/-- The byte body of a response (empty for JSON/redirect/error variants,
whose bodies are not byte strings in the model). -/
def respBody : HttpResp → List Nat
  | .bytes _ _ _ b => b
  | .file _ _ _ b => b
  | _ => []

/-- Look up a response header set explicitly by a handler. -/
def respHeader (k : String) : HttpResp → Option String
  | .bytes _ _ hs _ => hs.lookup k
  | _ => none

/-- Python `status_override or 200`: `None` and `0` are falsy. -/
def pyOrStatus (statusOverride : Option Int) : Int :=
  match statusOverride with
  | none => 200
  | some s => if s = 0 then 200 else s

/-- Handler `GET /api/setup` (`api_setup`).  `baseUrl` models
`str(request.base_url)`; `statusOverride` the `?status_override=` query
parameter. -/
def apiSetup (baseUrl : String) (statusOverride : Option Int) : HttpResp :=
  if pyOrStatus statusOverride ≠ 200 then
    .json 200 (.obj [("status", .num (pyOrStatus statusOverride)),
      ("message", .str "simulated status error")])
  else
    .json 200 (.obj [("status", .num 200),
      ("api_key", .str "local-test-api-key"),
      ("friendly_id", .str "TRMNL-LOCAL-1234"),
      ("image_url", .str (rstripSlash baseUrl ++ "/images/example.bmp")),
      ("message", .str "ok")])

/-- A wall-clock instant, the part of `datetime.now()` observed by
`strftime('%Y%m%d%H%M%S')`. -/
structure DateTime where
  year : Nat
  month : Nat
  day : Nat
  hour : Nat
  minute : Nat
  second : Nat
deriving DecidableEq

/-- Zero-pad the decimal rendering of `n` to width `w` (strftime padding). -/
def padZero (w : Nat) (n : Nat) : String :=
  let s := toString n
  ⟨List.replicate (w - s.length) '0' ++ s.data⟩

/-- Python `datetime.now().strftime('%Y%m%d%H%M%S')`. -/
def strftimeYmdHMS (t : DateTime) : String :=
  padZero 4 t.year ++ padZero 2 t.month ++ padZero 2 t.day ++
    padZero 2 t.hour ++ padZero 2 t.minute ++ padZero 2 t.second

/-- The JSON body built by `api_display`, as the ordered field list of the
Python dict literal.  Only `filename` mentions the clock. -/
def apiDisplayBody (t : DateTime) : List (String × Json) :=
  [("status", .num 0),
   ("image_url", .str "http://192.168.0.212:65111/images/display.bmp"),
   ("filename", .str ("img_" ++ strftimeYmdHMS t)),
   ("update_firmware", .bool false),
   ("firmware_url", .null),
   ("refresh_rate", .num 60),
   ("reset_firmware", .bool false)]

/-- Handler `GET /api/display` (`api_display`).  The `id` and
`access_token` headers are received but only logged, never used in the
response; `t` is the clock reading taken by the handler. -/
def apiDisplay (t : DateTime) (idHeader accessToken : Option String) : HttpResp :=
  .json 200 (.obj (apiDisplayBody t))

/-- Python `k in v` for a JSON value `v` that supports membership: key
membership for dicts, element membership for lists, substring for
strings. -/
def pyMember (k : String) (v : Json) : Bool :=
  match v with
  | .obj fields => fields.any (fun p => p.1 == k)
  | .arr elems => elems.any (fun e =>
      match e with
      | .str s => s == k
      | _ => false)
  | .str s => containsSub k.data s.data
  | _ => false

/-- Does `k in v` evaluate at all?  Python raises `TypeError` for values
that are not dicts, lists or strings. -/
def canMember (v : Json) : Bool :=
  match v with
  | .obj _ => true
  | .arr _ => true
  | .str _ => true
  | _ => false

/-- The list comprehension `[k for k in required if k not in first]` of
`api_log`, with `required = ["created_at", "id", "message"]`; `none`
models the `TypeError` raised when `first` supports no membership test. -/
def missingOf (first : Json) : Option (List String) :=
  if canMember first then
    some ((["created_at", "id", "message"]).filter (fun k => !(pyMember k first)))
  else none

/-- The validation `api_log` applies to the first log entry: an unhandled
`TypeError` (entry supports no membership test) surfaces as a 500, a
non-empty missing list as the 400 "missing fields" response, and a
complete entry falls through to the 200 "ok" response. -/
def logFirstCheck (first : Json) : HttpResp :=
  match missingOf first with
  | none => .error 500 "Internal Server Error"
  | some [] => .json 200 (.obj [("result", .str "ok")])
  | some missing =>
    .json 400 (.obj [("error", .str ("missing fields: " ++ pyListRepr missing))])

/-- Handler `POST /api/log` (`api_log`).  `body` is the parsed JSON
request body, `none` when `await request.json()` raises. -/
def apiLog (noContent : Bool) (body : Option Json) : HttpResp :=
  if noContent then .json 200 (.obj [("result", .str "ok")])
  else
    match body with
    | none => .json 400 (.obj [("error", .str "invalid json")])
    | some (.obj fields) =>
      match fields.lookup "logs" with
      | some (.arr []) => .json 200 (.obj [("result", .str "ok")])
      | some (.arr (first :: _)) => logFirstCheck first
      | _ => .json 400 (.obj [("error",
          .str ("expected \x7b\"logs\": [...] \x7d"))])
    | some _ => .json 400 (.obj [("error",
        .str ("expected \x7b\"logs\": [...] \x7d"))])

/-- The repeating pattern `b"FIRMWARE-" + version.encode() + b"-"` of
`firmware_bin`. -/
def firmwareChunk (version : String) : List Nat :=
  strBytes "FIRMWARE-" ++ strBytes version ++ strBytes "-"

/-- The firmware payload of `firmware_bin`: either the fixed fake blob,
or, when `?size=` is supplied, `chunk * (size // len(chunk)) +
chunk[: size % len(chunk)]` (Python floor division and nonnegative
modulus). -/
def fwContent (version : String) (size : Option Int) : List Nat :=
  match size with
  | none => strBytes "FAKEFIRMWAREDATA-" ++ strBytes version
  | some size =>
    let chunk := firmwareChunk version
    (List.replicate (size / (chunk.length : Int)).toNat chunk).flatten ++
      chunk.take ((size % (chunk.length : Int)).toNat)

/-- Handler `GET /firmware/{version}/firmware.bin` (`firmware_bin`). -/
def firmwareBin (baseUrl version : String) (redirect : Bool)
    (size : Option Int) : HttpResp :=
  if redirect then
    .redirect 307 (rstripSlash baseUrl ++ "/firmware/" ++ version ++ "/signed.bin")
  else
    .bytes 200 "application/octet-stream"
      [("Content-Disposition",
        "attachment; filename=\"firmware-" ++ version ++ ".bin\""),
       ("Content-Length", intStr ((fwContent version size).length : Int))]
      (fwContent version size)

/-- The `Content-Length` value `firmware_head` computes without building
the payload: the fixed blob's length when `?size=` is absent, otherwise
the requested size itself. -/
def fwHeadLength (version : String) (size : Option Int) : Int :=
  match size with
  | none => ((strBytes "FAKEFIRMWAREDATA-" ++ strBytes version).length : Int)
  | some size => size

/-- Handler `HEAD /firmware/{version}/firmware.bin` (`firmware_head`):
announces the `Content-Length` of `fwHeadLength` and sends an empty body. -/
def firmwareHead (version : String) (size : Option Int) : HttpResp :=
  .bytes 200 "application/octet-stream"
    [("Content-Disposition",
      "attachment; filename=\"firmware-" ++ version ++ ".bin\""),
     ("Content-Length", intStr (fwHeadLength version size))]
    []

/-- Handler `GET /firmware/{version}/signed.bin` (`firmware_signed`). -/
def firmwareSigned (version : String) : HttpResp :=
  .bytes 200 "application/octet-stream"
    [("Content-Disposition",
      "attachment; filename=\"firmware-" ++ version ++ "-signed.bin\"")]
    (strBytes "SIGNEDFAKEFIRMWARE-" ++ strBytes version)

/-- Handler `GET /images/{name}` (`serve_image`).  `fs` maps a relative
path to the bytes of the file stored there, `none` when no such file
exists (`os.path.exists` / reading the file). -/
def serveImage (fs : String → Option (List Nat)) (name : String) : HttpResp :=
  if containsSub ['.', '.'] name.data || startsWithSlash name then
    .error 400 "Invalid filename"
  else
    match fs ("images/" ++ name) with
    | some content => .file 200 "image/bmp" ("images/" ++ name) content
    | none => .error 404 "Image not found on disk"

/-- The missing-key list for a first log entry that is a JSON object:
the required keys whose lookup in the entry's fields fails.  Proven equal
to what `missingOf` computes on objects (`missingOf_obj`). -/
def missingKeys (fields : List (String × Json)) : List String :=
  (["created_at", "id", "message"]).filter
    (fun k => !(fields.any (fun p => p.1 == k)))

/-- The request bodies `api_log` accepts with a 200 "ok" (ignoring
`?no_content`): an object whose `logs` key holds a list that is empty or
whose first entry passes the membership test for all three required keys. -/
def logBodyOk (body : Option Json) : Bool :=
  match body with
  | some (Json.obj fields) =>
    match fields.lookup "logs" with
    | some (Json.arr []) => true
    | some (Json.arr (first :: _)) =>
      match missingOf first with
      | some [] => true
      | _ => false
    | _ => false
  | _ => false

/-- A named field of a JSON-object response body, used to observe a
single component of a handler's response. -/
def respJsonField (k : String) : HttpResp → Option Json
  | .json _ (.obj fields) => fields.lookup k
  | _ => none

lemma firmwareChunk_length (v : String) :
    (firmwareChunk v).length = 10 + (strBytes v).length := by
  have h1 : (strBytes "FIRMWARE-").length = 9 := by decide
  have h2 : (strBytes "-").length = 1 := by decide
  rw [firmwareChunk, List.length_append, List.length_append, h1, h2]
  omega

lemma toNat_natCast_div (a b : Nat) : ((a : Int) / (b : Int)).toNat = a / b := by
  rw [← Int.ofNat_ediv]
  exact Int.toNat_ofNat _

lemma toNat_natCast_mod (a b : Nat) : ((a : Int) % (b : Int)).toNat = a % b := by
  rw [← Int.ofNat_emod]
  exact Int.toNat_ofNat _

lemma flatten_replicate_length {α : Type} (n : Nat) (l : List α) :
    (List.replicate n l).flatten.length = n * l.length := by
  induction n with
  | zero => simp
  | succ m ih =>
    rw [List.replicate_succ, List.flatten_cons, List.length_append, ih]
    ring

lemma fwContent_some_eq (v : String) (N : Nat) :
    fwContent v (some (N : Int)) =
      (List.replicate (N / (firmwareChunk v).length) (firmwareChunk v)).flatten ++
        (firmwareChunk v).take (N % (firmwareChunk v).length) := by
  simp [fwContent, toNat_natCast_div, toNat_natCast_mod]

lemma fwContent_some_length (v : String) (N : Nat) :
    (fwContent v (some (N : Int))).length = N := by
  rw [fwContent_some_eq]
  have hL := firmwareChunk_length v
  have hpos : 0 < (firmwareChunk v).length := by omega
  have hlt : N % (firmwareChunk v).length < (firmwareChunk v).length :=
    Nat.mod_lt _ hpos
  rw [List.length_append, flatten_replicate_length, List.length_take,
    Nat.min_eq_left (le_of_lt hlt), Nat.mul_comm]
  exact Nat.div_add_mod N _

lemma missingOf_obj (fields : List (String × Json)) :
    missingOf (.obj fields) = some (missingKeys fields) := rfl

/-- C6: with a truthy `redirect` query parameter, GET
`/firmware/{version}/firmware.bin` answers 307 with `Location` the
request base URL (trailing slashes stripped) joined with
`/firmware/{version}/signed.bin`, for every version and size; and GET
`/firmware/{version}/signed.bin` answers 200 with an
`application/octet-stream` body equal to `b"SIGNEDFAKEFIRMWARE-" +
version.encode()`. -/
theorem C6_theorem :
    (∀ (base v : String) (size : Option Int),
      firmwareBin base v true size =
        .redirect 307 (rstripSlash base ++ "/firmware/" ++ v ++ "/signed.bin")) ∧
    (∀ v : String,
      firmwareSigned v =
        .bytes 200 "application/octet-stream"
          [("Content-Disposition",
            "attachment; filename=\"firmware-" ++ v ++ "-signed.bin\"")]
          (strBytes "SIGNEDFAKEFIRMWARE-" ++ strBytes v)) :=
  ⟨fun _ _ _ => rfl, fun _ => rfl⟩

/-- C9: GET `/api/display` always answers HTTP 200; the body's `status`
field is the number 0 and its `image_url` field is the hardcoded literal
`http://192.168.0.212:65111/images/display.bmp`, whatever the request
headers; the response does not depend on the request at a fixed time, and
among the body's fields only `filename` (derived from the current time as
`img_` + `%Y%m%d%H%M%S`) varies between two times. -/
theorem C9_theorem :
    (∀ (t : DateTime) (i a : Option String), respStatus (apiDisplay t i a) = 200) ∧
    (∀ t : DateTime, (apiDisplayBody t).lookup "status" = some (.num 0)) ∧
    (∀ t : DateTime, (apiDisplayBody t).lookup "image_url" =
      some (.str "http://192.168.0.212:65111/images/display.bmp")) ∧
    (∀ (t : DateTime) (i1 a1 i2 a2 : Option String),
      apiDisplay t i1 a1 = apiDisplay t i2 a2) ∧
    (∀ t : DateTime, (apiDisplayBody t).lookup "filename" =
      some (.str ("img_" ++ strftimeYmdHMS t))) ∧
    (∀ t s : DateTime,
      (apiDisplayBody t).filter (fun p => p.1 != "filename") =
        (apiDisplayBody s).filter (fun p => p.1 != "filename")) :=
  ⟨fun _ _ _ => rfl, fun _ => rfl, fun _ => rfl, fun _ _ _ _ _ => rfl,
    fun _ => rfl, fun _ _ => rfl⟩

/-- C2 counterexample: the bitmap served over HTTP is NOT produced by an
image-rendering helper drawing the current time — it is the disk content
returned unmodified.  With arbitrary junk bytes `[7, 99, 42]` stored at
`images/example.bmp`, GET `/images/example.bmp` serves exactly those
bytes, read from disk with no transformation (and no clock input exists
in the handler at all). -/
theorem C2_counterexample :
    serveImage
      (fun p => if p = "images/example.bmp" then some [7, 99, 42] else none)
      "example.bmp" =
      .file 200 "image/bmp" "images/example.bmp" [7, 99, 42] := rfl

/-- C2 amended: the repository imports an imaging library but defines no
rasterization routine; every file body served by GET `/images/{name}` is
exactly the bytes stored on disk at `images/<name>`, unmodified. -/
theorem C2_theorem (fs : String → Option (List Nat)) (name : String)
    (st : Int) (mt p : String) (body : List Nat)
    (h : serveImage fs name = .file st mt p body) :
    fs ("images/" ++ name) = some body := by
  by_cases hbad : (containsSub ['.', '.'] name.data || startsWithSlash name) = true
  · rw [serveImage, if_pos hbad] at h
    exact absurd h (by simp)
  · rw [serveImage, if_neg hbad] at h
    rcases hf : fs ("images/" ++ name) with _ | c
    · rw [hf] at h
      simp at h
    · rw [hf] at h
      simp only [HttpResp.file.injEq] at h
      rw [h.2.2.2]

/-- C2 witness: the amended theorem applied at a concrete one-file
filesystem. -/
theorem C2_witness :
    (fun p => if p = "images/a.bmp" then some ([1, 2] : List Nat) else none)
      ("images/" ++ "a.bmp") = some [1, 2] :=
  C2_theorem (fun p => if p = "images/a.bmp" then some [1, 2] else none)
    "a.bmp" 200 "image/bmp" "images/a.bmp" [1, 2] rfl

/-- C3 counterexample: with `?status_override=404`, GET `/api/setup` does
NOT carry the overridden status on the wire — the handler returns
`JSONResponse(status_code=200, ...)`, so the HTTP status is 200, not
404; only the body's `status` field reports 404. -/
theorem C3_counterexample :
    respStatus (apiSetup "http://device.local/" (some 404)) = 200 ∧
    (200 : Int) ≠ 404 ∧
    apiSetup "http://device.local/" (some 404) =
      .json 200 (.obj [("status", .num 404),
        ("message", .str "simulated status error")]) :=
  ⟨rfl, by decide, rfl⟩

/-- C3 amended: for every nonzero `s ≠ 200` supplied as
`status_override`, GET `/api/setup` answers with HTTP status 200 (not
`s`) and body `{"status": s, "message": "simulated status error"}`; with
the parameter absent, 0 or 200 it answers 200 with the canned setup body
(api_key `local-test-api-key`, friendly_id `TRMNL-LOCAL-1234`, image_url
the base URL joined with `/images/example.bmp`). -/
theorem C3_theorem :
    (∀ (s : Int) (base : String), s ≠ 0 → s ≠ 200 →
      apiSetup base (some s) =
        .json 200 (.obj [("status", .num s),
          ("message", .str "simulated status error")])) ∧
    (∀ base : String,
      apiSetup base (some 0) = apiSetup base none ∧
      apiSetup base (some 200) = apiSetup base none ∧
      apiSetup base none =
        .json 200 (.obj [("status", .num 200),
          ("api_key", .str "local-test-api-key"),
          ("friendly_id", .str "TRMNL-LOCAL-1234"),
          ("image_url", .str (rstripSlash base ++ "/images/example.bmp")),
          ("message", .str "ok")])) := by
  constructor
  · intro s base h0 h200
    simp [apiSetup, pyOrStatus, h0, h200]
  · intro base
    refine ⟨rfl, rfl, rfl⟩

/-- C7 counterexample: two executions of GET `/api/display` on identical
requests at two different clock readings (one second apart) return
different responses — the `filename` body field embeds the current
time — so handlers are not pure functions of the request alone. -/
theorem C7_counterexample :
    apiDisplay ⟨2026, 10, 12, 0, 0, 0⟩ none none ≠
      apiDisplay ⟨2026, 10, 12, 0, 0, 1⟩ none none := by
  intro h
  have h2 : (some (Json.str "img_20261012000000") : Option Json) =
      some (Json.str "img_20261012000001") :=
    congrArg (respJsonField "filename") h
  injection h2 with h3
  injection h3 with h4
  exact absurd h4 (by decide)

/-- C7 amended: handlers keep no state across requests, and each is a
pure function of the request parameters and the clock; GET `/api/display`
is however not time-invariant: at a fixed time its response is
independent of the request headers, and between two times every part of
its response except the `filename` body field coincides. -/
theorem C7_theorem :
    (∀ (t : DateTime) (i1 a1 i2 a2 : Option String),
      apiDisplay t i1 a1 = apiDisplay t i2 a2) ∧
    (∀ (t s : DateTime) (i a j b : Option String),
      respStatus (apiDisplay t i a) = respStatus (apiDisplay s j b)) ∧
    (∀ t s : DateTime,
      (apiDisplayBody t).filter (fun p => p.1 != "filename") =
        (apiDisplayBody s).filter (fun p => p.1 != "filename")) ∧
    (∀ (t s : DateTime) (i a j b : Option String),
      respJsonField "status" (apiDisplay t i a) =
        respJsonField "status" (apiDisplay s j b) ∧
      respJsonField "image_url" (apiDisplay t i a) =
        respJsonField "image_url" (apiDisplay s j b) ∧
      respJsonField "refresh_rate" (apiDisplay t i a) =
        respJsonField "refresh_rate" (apiDisplay s j b)) :=
  ⟨fun _ _ _ _ _ => rfl, fun _ _ _ _ _ _ => rfl, fun _ _ => rfl,
    fun _ _ _ _ _ _ => ⟨rfl, rfl, rfl⟩⟩

/-- C8: GET `/images/{name}` rejects with 400, before any filesystem
access, every name containing `..` or starting with `/` (the response is
the same for every filesystem); and every file it serves was read from
`images/<name>`. -/
theorem C8_theorem :
    (∀ (name : String) (fs gs : String → Option (List Nat)),
      (containsSub ['.', '.'] name.data || startsWithSlash name) = true →
        serveImage fs name = .error 400 "Invalid filename" ∧
        serveImage fs name = serveImage gs name) ∧
    (∀ (fs : String → Option (List Nat)) (name : String) (st : Int)
        (mt p : String) (body : List Nat),
      serveImage fs name = .file st mt p body →
        p = "images/" ++ name ∧ fs ("images/" ++ name) = some body) := by
  constructor
  · intro name fs gs hbad
    constructor
    · rw [serveImage, if_pos hbad]
    · rw [serveImage, if_pos hbad, serveImage, if_pos hbad]
  · intro fs name st mt p body h
    by_cases hbad : (containsSub ['.', '.'] name.data || startsWithSlash name) = true
    · rw [serveImage, if_pos hbad] at h
      exact absurd h (by simp)
    · rw [serveImage, if_neg hbad] at h
      rcases hf : fs ("images/" ++ name) with _ | c
      · rw [hf] at h
        simp at h
      · rw [hf] at h
        simp only [HttpResp.file.injEq] at h
        exact ⟨h.2.2.1.symm, by rw [h.2.2.2]⟩

/-- C8 witness: a name containing `..` is rejected with 400 even on a
filesystem where every path exists. -/
theorem C8_witness :
    serveImage (fun _ => some [5]) "../secret" = .error 400 "Invalid filename" :=
  ((C8_theorem.1 "../secret" (fun _ => some [5]) (fun _ => none)) (by decide)).1

/-- C4: for every version `v` and every nonnegative `?size=N`, GET
`/firmware/{version}/firmware.bin` answers 200 `application/octet-stream`
with body the chunk `b"FIRMWARE-" + v.encode() + b"-"` repeated
`N / len(chunk)` times followed by its first `N % len(chunk)` bytes — a
body of exactly `N` bytes — and a `Content-Length` header equal to `N`;
with `?size` absent the body is exactly `b"FAKEFIRMWAREDATA-" +
v.encode()`. -/
theorem C4_theorem :
    (∀ (base v : String) (N : Nat),
      firmwareBin base v false (some (N : Int)) =
        .bytes 200 "application/octet-stream"
          [("Content-Disposition",
            "attachment; filename=\"firmware-" ++ v ++ ".bin\""),
           ("Content-Length", intStr (N : Int))]
          ((List.replicate (N / (firmwareChunk v).length) (firmwareChunk v)).flatten ++
            (firmwareChunk v).take (N % (firmwareChunk v).length)) ∧
      (respBody (firmwareBin base v false (some (N : Int)))).length = N) ∧
    (∀ base v : String,
      firmwareBin base v false none =
        .bytes 200 "application/octet-stream"
          [("Content-Disposition",
            "attachment; filename=\"firmware-" ++ v ++ ".bin\""),
           ("Content-Length",
             intStr (((strBytes "FAKEFIRMWAREDATA-" ++ strBytes v).length : Nat) : Int))]
          (strBytes "FAKEFIRMWAREDATA-" ++ strBytes v)) := by
  constructor
  · intro base v N
    constructor
    · have hstart : firmwareBin base v false (some (N : Int)) =
          .bytes 200 "application/octet-stream"
            [("Content-Disposition",
              "attachment; filename=\"firmware-" ++ v ++ ".bin\""),
             ("Content-Length",
               intStr (((fwContent v (some (N : Int))).length : Nat) : Int))]
            (fwContent v (some (N : Int))) := rfl
      rw [hstart, fwContent_some_length, fwContent_some_eq]
    · exact fwContent_some_length v N
  · intro base v
    rfl

/-- C5: the `Content-Length` announced by HEAD
`/firmware/{version}/firmware.bin` equals the byte length of the body GET
returns for the same version and (absent or nonnegative) size, although
the HEAD response body is empty. -/
theorem C5_theorem :
    ∀ (base v : String) (sz : Option Nat),
      respHeader "Content-Length" (firmwareHead v (sz.map Int.ofNat)) =
        some (intStr
          (((respBody (firmwareBin base v false (sz.map Int.ofNat))).length : Nat) : Int)) ∧
      respBody (firmwareHead v (sz.map Int.ofNat)) = [] := by
  intro base v sz
  rcases sz with _ | n
  · exact ⟨rfl, rfl⟩
  · refine ⟨?_, rfl⟩
    show some (intStr ((n : Nat) : Int)) =
      some (intStr (((fwContent v (some ((n : Nat) : Int))).length : Nat) : Int))
    rw [fwContent_some_length]

/-- C10 counterexample: for the well-formed body `{"logs": [5]}` the
first entry lacks every required key, so the claim demands a 400
"missing fields" response; the handler instead evaluates `"created_at"
not in 5`, which raises `TypeError`, and the request ends in an
unhandled 500 — neither the claimed 400 nor a 200. -/
theorem C10_counterexample :
    apiLog false (some (.obj [("logs", .arr [.num 5])])) =
      .error 500 "Internal Server Error" := rfl

/-- C10 amended: POST `/api/log` validates only the first element of the
`logs` array, and only when that element supports Python's `in` test.
For a body whose `logs` list starts with a JSON object, the handler
answers 400 ("missing fields") exactly when one of `created_at`, `id`,
`message` is absent from that first object, and 200 `{"result": "ok"}`
otherwise — regardless of the remaining entries; an empty `logs` list
also yields 200.  (A first entry that is not a dict, list or string
makes the handler raise, ending in a 500.) -/
theorem C10_theorem :
    (∀ (first : List (String × Json)) (rest : List Json),
      apiLog false (some (.obj [("logs", .arr (Json.obj first :: rest))])) =
        (if missingKeys first = [] then
          .json 200 (.obj [("result", .str "ok")])
        else
          .json 400 (.obj [("error",
            .str ("missing fields: " ++ pyListRepr (missingKeys first)))])) ∧
      missingKeys first =
        (["created_at", "id", "message"]).filter
          (fun k => !(first.any (fun p => p.1 == k)))) ∧
    (apiLog false (some (.obj [("logs", .arr [])])) =
      .json 200 (.obj [("result", .str "ok")])) := by
  refine ⟨fun first rest => ⟨?_, rfl⟩, rfl⟩
  have hstep : apiLog false (some (.obj [("logs", .arr (Json.obj first :: rest))])) =
      logFirstCheck (.obj first) := rfl
  rw [hstep, logFirstCheck, missingOf_obj]
  rcases hk : missingKeys first with _ | ⟨k, ks⟩
  · simp
  · simp

/-- C1 counterexample: an error response that matches neither "requested
file does not exist" nor "malformed JSON body": on a filesystem where
every path holds a file, GET `/images/..` (a request with no JSON body at
all) is answered with the 400 "Invalid filename" error before any disk
access. -/
theorem C1_counterexample :
    serveImage (fun _ => some [0]) ".." = .error 400 "Invalid filename" ∧
    (fun (_ : String) => (some [0] : Option (List Nat))) "images/.." = some [0] :=
  ⟨rfl, rfl⟩

/-- C1 amended: the only endpoints that can produce an error response are
GET `/images/{name}` and POST `/api/log`.  `/images` errors exactly for
an invalid name (`..` inside or leading `/`, 400) or a missing file
(404); `/api/log` (without `?no_content`) errors exactly for an
unparseable body, a body that is not an object carrying a `logs` list, or
a non-empty `logs` whose first entry fails the required-key check (400;
an entry supporting no membership test raises, ending in 500).  Every
other endpoint always answers 200, or 307 for the firmware redirect. -/
theorem C1_theorem :
    (∀ (base : String) (so : Option Int), respStatus (apiSetup base so) = 200) ∧
    (∀ (t : DateTime) (i a : Option String), respStatus (apiDisplay t i a) = 200) ∧
    (∀ b : Option Json, respStatus (apiLog true b) = 200) ∧
    (∀ (base v : String) (sz : Option Int),
      respStatus (firmwareBin base v true sz) = 307 ∧
      respStatus (firmwareBin base v false sz) = 200) ∧
    (∀ (v : String) (sz : Option Int), respStatus (firmwareHead v sz) = 200) ∧
    (∀ v : String, respStatus (firmwareSigned v) = 200) ∧
    (∀ b : Option Json,
      400 ≤ respStatus (apiLog false b) ↔ logBodyOk b = false) ∧
    (∀ (fs : String → Option (List Nat)) (name : String),
      (400 ≤ respStatus (serveImage fs name) ↔
        (containsSub ['.', '.'] name.data || startsWithSlash name) = true ∨
          fs ("images/" ++ name) = none) ∧
      (respStatus (serveImage fs name) = 404 ↔
        (containsSub ['.', '.'] name.data || startsWithSlash name) = false ∧
          fs ("images/" ++ name) = none)) := by
  refine ⟨?_, fun _ _ _ => rfl, fun _ => rfl, fun _ _ _ => ⟨rfl, rfl⟩,
    fun _ _ => rfl, fun _ => rfl, ?_, ?_⟩
  · intro base so
    by_cases h : pyOrStatus so = 200
    · rw [apiSetup, if_neg (by simp [h])]
      rfl
    · rw [apiSetup, if_pos (by simp [h])]
      rfl
  · intro b
    rcases b with _ | b
    · simp [apiLog, logBodyOk, respStatus]
    · cases b with
      | obj fields =>
        rcases hl : fields.lookup "logs" with _ | j
        · simp [apiLog, logBodyOk, respStatus, hl]
        · cases j with
          | arr elems =>
            cases elems with
            | nil => simp [apiLog, logBodyOk, respStatus, hl]
            | cons first rest =>
              rcases hm : missingOf first with _ | ms
              · simp [apiLog, logFirstCheck, logBodyOk, respStatus, hl, hm]
              · cases ms with
                | nil => simp [apiLog, logFirstCheck, logBodyOk, respStatus, hl, hm]
                | cons k ks => simp [apiLog, logFirstCheck, logBodyOk, respStatus, hl, hm]
          | null => simp [apiLog, logBodyOk, respStatus, hl]
          | bool x => simp [apiLog, logBodyOk, respStatus, hl]
          | num x => simp [apiLog, logBodyOk, respStatus, hl]
          | str x => simp [apiLog, logBodyOk, respStatus, hl]
          | obj x => simp [apiLog, logBodyOk, respStatus, hl]
      | null => simp [apiLog, logBodyOk, respStatus]
      | bool x => simp [apiLog, logBodyOk, respStatus]
      | num x => simp [apiLog, logBodyOk, respStatus]
      | str x => simp [apiLog, logBodyOk, respStatus]
      | arr x => simp [apiLog, logBodyOk, respStatus]
  · intro fs name
    by_cases hbad : (containsSub ['.', '.'] name.data || startsWithSlash name) = true
    · rw [serveImage, if_pos hbad]
      constructor
      · simp [respStatus, hbad]
      · simp [respStatus, hbad]
    · rw [serveImage, if_neg hbad]
      rcases hf : fs ("images/" ++ name) with _ | c
      · constructor
        · simp [respStatus, hbad]
        · simp [respStatus, Bool.not_eq_true (containsSub ['.', '.'] name.data || startsWithSlash name), hbad]
      · constructor
        · simp [respStatus, hbad]
        · simp [respStatus, hbad]

end TRMNL
